import Mathlib

/-!
Verification development for the two layer classes of the hebel repository:
`hebel/layers/hidden_layer.py` (`HiddenLayer`) and
`hebel/layers/softmax_layer.py` (`SoftmaxLayer`).

Matrices are embedded as explicit-dimension arrays of rational entries
(`GMat`, `GVec`), so shape information is data and shape mismatches can be
observed.  The device kernels that the two source files call
(`hebel.pycuda_ops.*` and the pycuda array primitives) are not part of the
two source files; they are embedded from the contracts the specification
gives for them (matrix multiply with transpose flags, elementwise
multiply/subtract/sign, bias broadcast-add, column-sum reduction,
NaN-to-zero sanitization, dropout-mask sampling and application).  Each such
definition carries a `Modelled from the spec:` note.  For the softmax layer,
entries live in `FV` (`Option ℚ`), where `Option.none` stands for an IEEE
NaN value and arithmetic propagates it; this makes the NaN-sanitization
behaviour of `nan_to_zeros` observable.

Stateful behaviour is made explicit: in-place mutation of the caller's
`df_output` buffer by `HiddenLayer.backprop` is modelled by returning the
final buffer contents (`BackpropOut.df_output_final`), and the layer object
itself is passed and returned functionally.  Randomness (the external
sampler) is modelled by an explicit mask oracle argument.
-/

/-- A device-resident matrix with explicit dimensions.  Entries outside the
`rows × cols` extent are irrelevant padding of the total entry function. -/
structure GMat (α : Type) where
  rows : ℕ
  cols : ℕ
  entry : ℕ → ℕ → α

/-- A device-resident one-dimensional array with explicit length. -/
structure GVec (α : Type) where
  len : ℕ
  entry : ℕ → α

/-- The `.shape` attribute of a two-dimensional array. -/
def GMat.shape {α : Type} (A : GMat α) : ℕ × ℕ := (A.rows, A.cols)

theorem GMat.eqOf {α : Type} {A B : GMat α} (h1 : A.rows = B.rows)
    (h2 : A.cols = B.cols) (h3 : A.entry = B.entry) : A = B := by
  cases A
  cases B
  simp_all

theorem GVec.eqOfVec {α : Type} {v w : GVec α} (h1 : v.len = w.len)
    (h2 : v.entry = w.entry) : v = w := by
  cases v
  cases w
  simp_all

/-- Elementwise map over a matrix; the elementwise device kernels
(activation functions and their derivatives) act this way per the spec's
kernel-library contract. -/
def GMat.map {α β : Type} (A : GMat α) (g : α → β) : GMat β :=
  ⟨A.rows, A.cols, fun i j => g (A.entry i j)⟩

/-- Modelled from the spec: `linalg.dot(A, B)` — plain matrix multiply. -/
def dotQ (A B : GMat ℚ) : GMat ℚ :=
  ⟨A.rows, B.cols, fun i j => ∑ k ∈ Finset.range A.cols, A.entry i k * B.entry k j⟩

/-- Modelled from the spec: `linalg.dot(A, B, transa='T')` — `Aᵀ · B`. -/
def dotTa (A B : GMat ℚ) : GMat ℚ :=
  ⟨A.cols, B.cols, fun i j => ∑ k ∈ Finset.range A.rows, A.entry k i * B.entry k j⟩

/-- Modelled from the spec: `linalg.dot(A, B, transb='T')` — `A · Bᵀ`. -/
def dotTb (A B : GMat ℚ) : GMat ℚ :=
  ⟨A.rows, B.rows, fun i j => ∑ k ∈ Finset.range A.cols, A.entry i k * B.entry j k⟩

/-- Modelled from the spec: `add_vec_to_mat(A, b, inplace=True)` — bias
broadcast-add per row. -/
def addVecToMat (A : GMat ℚ) (b : GVec ℚ) : GMat ℚ :=
  ⟨A.rows, A.cols, fun i j => A.entry i j + b.entry j⟩

/-- Modelled from the spec: `mult_matrix(A, B)` — elementwise product. -/
def multMatrix (A B : GMat ℚ) : GMat ℚ :=
  ⟨A.rows, A.cols, fun i j => A.entry i j * B.entry i j⟩

/-- Elementwise matrix sum (the `+=` of two device arrays). -/
def addMat (A B : GMat ℚ) : GMat ℚ :=
  ⟨A.rows, A.cols, fun i j => A.entry i j + B.entry i j⟩

/-- Scalar times matrix (`c * A` on device arrays). -/
def smulMat (c : ℚ) (A : GMat ℚ) : GMat ℚ :=
  ⟨A.rows, A.cols, fun i j => c * A.entry i j⟩

/-- Matrix times scalar on the right (`A *= c` on device arrays). -/
def mulScalarRight (A : GMat ℚ) (c : ℚ) : GMat ℚ :=
  ⟨A.rows, A.cols, fun i j => A.entry i j * c⟩

/-- The sign function on rationals (numpy semantics: `sign 0 = 0`). -/
def signQ (q : ℚ) : ℚ := if 0 < q then 1 else if q < 0 then -1 else 0

/-- Modelled from the spec: elementwise `sign(W)`. -/
def signMat (A : GMat ℚ) : GMat ℚ := A.map signQ

/-- Modelled from the spec: `matrix_sum_out_axis(A, 0)` — sum out axis 0,
i.e. the column sums, a vector of length `A.cols`. -/
def matrixSumOutAxis0 (A : GMat ℚ) : GVec ℚ :=
  ⟨A.cols, fun j => ∑ i ∈ Finset.range A.rows, A.entry i j⟩

/-- Modelled from the spec: `apply_dropout_mask(df_output, mask)` —
multiplies the buffer elementwise by the binary mask, in place. -/
def applyDropoutMask (A mask : GMat ℚ) : GMat ℚ := multMatrix A mask

/-- Modelled from the spec: `sample_dropout_mask(activations, p)` — samples a
Bernoulli mask (the sample itself is supplied by the `mask` oracle, standing
for the external uniform sampler), multiplicatively zeroes the corresponding
activation entries in place, and returns `(masked activations, mask)`. -/
def sampleDropoutMask (activations : GMat ℚ) (mask : ℕ → ℕ → ℚ) :
    GMat ℚ × GMat ℚ :=
  (multMatrix activations ⟨activations.rows, activations.cols, mask⟩,
   ⟨activations.rows, activations.cols, mask⟩)

/-- The state of a `HiddenLayer` object (hidden_layer.py lines 107–153).
The activation kernel pair `f`/`df` is stored as resolved functions; the
kernels themselves live in `hebel.pycuda_ops.elementwise`, outside the two
source files, so they are abstract here. -/
structure HiddenLayer where
  n_in : ℕ
  n_units : ℕ
  W : GMat ℚ
  b : GVec ℚ
  activation_function : String
  f : ℚ → ℚ
  df : ℚ → ℚ
  weights_scale : ℝ
  dropout : ℚ
  l1_penalty_weight : ℚ
  l2_penalty_weight : ℚ
  lr_multiplier : List ℝ

/-- `HiddenLayer._resolve_activation_fct` (hidden_layer.py lines 187–204):
validates the activation name, raising `ValueError` for an unrecognized one.
The four concrete kernel pairs live outside the source files, so the
resolved pair is supplied abstractly as `fdf`. -/
def resolveActivationFct (activation_function : String)
    (fdf : (ℚ → ℚ) × (ℚ → ℚ)) : Except String ((ℚ → ℚ) × (ℚ → ℚ)) :=
  if activation_function = "sigmoid" ∨ activation_function = "tanh" ∨
      activation_function = "relu" ∨ activation_function = "linear" then
    Except.ok fdf
  else
    Except.error "ValueError"

/-- `HiddenLayer._set_weights_scale` (hidden_layer.py lines 210–216):
Bengio's rule, `sqrt(6/(n_in+n_units))` for tanh/relu/linear and four times
that for sigmoid; `ValueError` otherwise. -/
noncomputable def setWeightsScale (activation_function : String)
    (n_in n_units : ℕ) : Except String ℝ :=
  if activation_function = "tanh" ∨ activation_function = "relu" ∨
      activation_function = "linear" then
    Except.ok (Real.sqrt (6 / ((n_in : ℝ) + (n_units : ℝ))))
  else if activation_function = "sigmoid" then
    Except.ok (4 * Real.sqrt (6 / ((n_in : ℝ) + (n_units : ℝ))))
  else
    Except.error "ValueError"

/-- `HiddenLayer.__init__` (hidden_layer.py lines 107–153) for the case
where `parameters` is an explicitly supplied `(W, b)` pair.  The
string/pickle branch (external file I/O) and the `parameters=None` branch
(external uniform sampler) are not modelled; no claim concerns them.  The
`assert` statements on lines 137–138 (parameter shapes) and line 153
(dropout range) become `AssertionError` returns.  The boolean-to-float
dropout coercion of line 150 concerns only the legacy boolean arguments and
is outside `dropout : ℚ`. -/
noncomputable def HiddenLayer.init (n_in n_units : ℕ)
    (activation_function : String) (fdf : (ℚ → ℚ) × (ℚ → ℚ))
    (dropout : ℚ) (parameters : GMat ℚ × GVec ℚ)
    (weights_scale : Option ℝ) (l1_penalty_weight l2_penalty_weight : ℚ)
    (lr_multiplier : Option (List ℝ)) : Except String HiddenLayer :=
  match resolveActivationFct activation_function fdf with
  | Except.error e => Except.error e
  | Except.ok fd =>
    match (match weights_scale with
           | some ws => Except.ok ws
           | none => setWeightsScale activation_function n_in n_units) with
    | Except.error e => Except.error e
    | Except.ok ws =>
      if parameters.1.shape = (n_in, n_units) then
        if parameters.2.len = n_units then
          if 0 ≤ dropout ∧ dropout < 1 then
            Except.ok
              { n_in := n_in
                n_units := n_units
                W := parameters.1
                b := parameters.2
                activation_function := activation_function
                f := fd.1
                df := fd.2
                weights_scale := ws
                dropout := dropout
                l1_penalty_weight := l1_penalty_weight
                l2_penalty_weight := l2_penalty_weight
                lr_multiplier :=
                  lr_multiplier.getD
                    (List.replicate 2 ((1 : ℝ) / Real.sqrt (n_in : ℝ))) }
          else Except.error "AssertionError"
        else Except.error "AssertionError"
      else Except.error "AssertionError"

/-- The forward cache (a tuple of length one or two in the source). -/
inductive FFCache (α : Type) where
  | one (activations : GMat α)
  | two (activations dropoutMask : GMat α)

/-- The activations entry (`cache[0]`) of a forward cache. -/
def FFCache.activations {α : Type} : FFCache α → GMat α
  | FFCache.one a => a
  | FFCache.two a _ => a

/-- Whether a forward cache has two elements. -/
def FFCache.isTwo {α : Type} : FFCache α → Bool
  | FFCache.one _ => false
  | FFCache.two _ _ => true

/-- The activations computed by `HiddenLayer.feed_forward` before any
dropout handling (hidden_layer.py lines 250–253):
`f(input_data · W + b)` with the bias broadcast-added per row. -/
def hiddenActivations (layer : HiddenLayer) (input_data : GMat ℚ) : GMat ℚ :=
  GMat.map (addVecToMat (dotQ input_data layer.W) layer.b) layer.f

/-- `HiddenLayer.feed_forward` (hidden_layer.py lines 226–262).  The
Bernoulli sample drawn by `sample_dropout_mask` is supplied by the
`maskOracle` argument, standing for the external sampler. -/
def HiddenLayer.feed_forward (layer : HiddenLayer) (input_data : GMat ℚ)
    (prediction : Bool) (maskOracle : ℕ → ℕ → ℚ) :
    Except String (FFCache ℚ) :=
  if input_data.cols ≠ layer.W.rows then
    Except.error "ValueError"
  else
    if 0 < layer.dropout then
      if prediction then
        Except.ok (FFCache.one
          (mulScalarRight (hiddenActivations layer input_data)
            (1 - layer.dropout)))
      else
        Except.ok (FFCache.two
          (sampleDropoutMask (hiddenActivations layer input_data) maskOracle).1
          (sampleDropoutMask (hiddenActivations layer input_data) maskOracle).2)
    else
      Except.ok (FFCache.one (hiddenActivations layer input_data))

/-- The gradient of the loss with respect to the pre-activation
(hidden_layer.py lines 304–306): `delta = df(activations) ⊙ df_output`. -/
def backpropDelta (layer : HiddenLayer) (df_output activations : GMat ℚ) :
    GMat ℚ :=
  multMatrix (GMat.map activations layer.df) df_output

/-- The L1 weight-decay step of `backprop` (hidden_layer.py lines 316–317):
`df_W += l1_penalty_weight * sign(W)`, only when the weight is nonzero. -/
def applyL1 (layer : HiddenLayer) (dfW : GMat ℚ) : GMat ℚ :=
  if layer.l1_penalty_weight ≠ 0 then
    addMat dfW (smulMat layer.l1_penalty_weight (signMat layer.W))
  else dfW

/-- The L2 weight-decay step of `backprop` (hidden_layer.py lines 320–321):
`df_W += l2_penalty_weight * W`, only when the weight is nonzero. -/
def applyL2 (layer : HiddenLayer) (dfW : GMat ℚ) : GMat ℚ :=
  if layer.l2_penalty_weight ≠ 0 then
    addMat dfW (smulMat layer.l2_penalty_weight layer.W)
  else dfW

/-- The result of `HiddenLayer.backprop`.  `df_output_final` records the
final contents of the caller's `df_output` buffer, which the source mutates
in place via `apply_dropout_mask`. -/
structure BackpropOut where
  df_W : GMat ℚ
  df_b : GVec ℚ
  df_input : GMat ℚ
  df_output_final : GMat ℚ

/-- The gradient computation of `backprop` after cache unpacking
(hidden_layer.py lines 304–323), applied to the current (possibly
mask-mutated) `df_output` buffer. -/
def backpropCore (layer : HiddenLayer) (input_data df_output activations :
    GMat ℚ) : BackpropOut :=
  { df_W := applyL2 layer (applyL1 layer
      (dotTa input_data (backpropDelta layer df_output activations)))
    df_b := matrixSumOutAxis0 (backpropDelta layer df_output activations)
    df_input := dotTb (backpropDelta layer df_output activations) layer.W
    df_output_final := df_output }

/-- `HiddenLayer.backprop` (hidden_layer.py lines 264–323).  With no cache,
the forward pass is rerun in training mode (line 292).  A one-element cache
leaves the local `dropout_mask` unbound; evaluating the guard on line 301
with `dropout > 0` then raises `UnboundLocalError` (the mask returned by
`sample_dropout_mask` is never `None`, so in the two-element case the guard
reduces to `dropout > 0`). -/
def HiddenLayer.backprop (layer : HiddenLayer)
    (input_data df_output : GMat ℚ) (cache : Option (FFCache ℚ))
    (maskOracle : ℕ → ℕ → ℚ) : Except String BackpropOut :=
  match (match cache with
         | some c => Except.ok c
         | none => layer.feed_forward input_data false maskOracle) with
  | Except.error e => Except.error e
  | Except.ok (FFCache.two activations dropout_mask) =>
      Except.ok (backpropCore layer input_data
        (if 0 < layer.dropout then applyDropoutMask df_output dropout_mask
         else df_output)
        activations)
  | Except.ok (FFCache.one activations) =>
      if 0 < layer.dropout then Except.error "UnboundLocalError"
      else Except.ok (backpropCore layer input_data df_output activations)

/-- `HiddenLayer.update_parameters` (hidden_layer.py lines 169–175):
asserts that `values` has exactly `n_parameters = 2` entries, then applies
`param._axpbyz(1., gparam, mult, param)` to `W` and `b` in turn. -/
inductive PArr where
  | mat (A : GMat ℚ)
  | vec (v : GVec ℚ)

/-- Modelled from the spec: `param ← 1·param + mult·gparam` in place, for a
matrix parameter; the device kernel requires a matching shape. -/
def axpbyzMat (W : GMat ℚ) (g : PArr) (mult : ℚ) : Except String (GMat ℚ) :=
  match g with
  | PArr.mat A =>
      if A.rows = W.rows ∧ A.cols = W.cols then
        Except.ok ⟨W.rows, W.cols,
          fun i j => 1 * W.entry i j + mult * A.entry i j⟩
      else Except.error "shape mismatch"
  | PArr.vec _ => Except.error "shape mismatch"

/-- Modelled from the spec: `param ← 1·param + mult·gparam` in place, for a
one-dimensional parameter; the device kernel requires a matching shape. -/
def axpbyzVec (b : GVec ℚ) (g : PArr) (mult : ℚ) : Except String (GVec ℚ) :=
  match g with
  | PArr.vec v =>
      if v.len = b.len then
        Except.ok ⟨b.len, fun j => 1 * b.entry j + mult * v.entry j⟩
      else Except.error "shape mismatch"
  | PArr.mat _ => Except.error "shape mismatch"

/-- `HiddenLayer.update_parameters` (hidden_layer.py lines 169–175). -/
def HiddenLayer.update_parameters (layer : HiddenLayer)
    (values : List (PArr × ℚ)) : Except String HiddenLayer :=
  match values with
  | [(g1, m1), (g2, m2)] =>
      match axpbyzMat layer.W g1 m1 with
      | Except.error e => Except.error e
      | Except.ok W2 =>
          match axpbyzVec layer.b g2 m2 with
          | Except.error e => Except.error e
          | Except.ok b2 => Except.ok { layer with W := W2, b := b2 }
  | _ => Except.error "AssertionError"

/-- Residency of an array: device-resident (`GPUArray`) or host-resident
(numpy array). -/
inductive Arr (α : Type) where
  | dev (data : α)
  | host (data : α)

/-- The `isinstance(·, GPUArray)` test. -/
def Arr.isGPUArray {α : Type} : Arr α → Bool
  | Arr.dev _ => true
  | Arr.host _ => false

/-- Modelled from the spec: `gpuarray.to_gpu` transfers an array to the
device. -/
def toGpu {α : Type} : Arr α → Arr α
  | Arr.dev d => Arr.dev d
  | Arr.host d => Arr.dev d

/-- The `parameters` setter (hidden_layer.py lines 160–167), returning the
pair `(W, b)` as stored.  Note that in the source, BOTH residency tests
inspect `value[0]`: `self.b = value[1] if isinstance(value[0], GPUArray)
else gpuarray.to_gpu(value[1])`. -/
def parametersSetter (value : Arr (GMat ℚ) × Arr (GVec ℚ)) :
    Arr (GMat ℚ) × Arr (GVec ℚ) :=
  ((if (value.1).isGPUArray then value.1 else toGpu value.1),
   (if (value.1).isGPUArray then value.2 else toGpu value.2))

/-- A value of the `architecture` dictionary. -/
inductive ArchVal where
  | cls (name : String)
  | nat (n : ℕ)
  | str (s : String)
deriving DecidableEq

/-- `HiddenLayer.architecture` (hidden_layer.py lines 177–185).  The
`hasattr` guard always passes for a constructed layer, since
`_set_activation_fct` sets the attribute in `__init__`. -/
def HiddenLayer.architecture (layer : HiddenLayer) :
    List (String × ArchVal) :=
  [("class", ArchVal.cls "HiddenLayer"),
   ("n_in", ArchVal.nat layer.n_in),
   ("n_units", ArchVal.nat layer.n_units),
   ("activation_function", ArchVal.str layer.activation_function)]

/-- A float value as the softmax layer sees it: `Option.none` stands for an
IEEE NaN, any other value for the rational it carries.  Arithmetic
propagates NaN, as IEEE arithmetic does. -/
abbrev FV := Option ℚ

/-- Whether a float value is NaN. -/
def FV.isNaN : FV → Bool
  | Option.none => true
  | Option.some _ => false

/-- NaN-propagating addition. -/
def FV.add : FV → FV → FV
  | Option.some a, Option.some b => Option.some (a + b)
  | _, _ => Option.none

/-- NaN-propagating subtraction. -/
def FV.sub : FV → FV → FV
  | Option.some a, Option.some b => Option.some (a - b)
  | _, _ => Option.none

/-- NaN-propagating multiplication (note `NaN * 0 = NaN` in IEEE terms). -/
def FV.mul : FV → FV → FV
  | Option.some a, Option.some b => Option.some (a * b)
  | _, _ => Option.none

/-- NaN-propagating sign (numpy's `sign(NaN) = NaN`). -/
def FV.sign : FV → FV
  | Option.some a => Option.some (signQ a)
  | Option.none => Option.none

/-- Sum of a list of float values, NaN-propagating. -/
def FV.listSum (l : List FV) : FV := l.foldr FV.add (Option.some 0)

/-- Modelled from the spec: `substract_matrix(A, B)` — elementwise `A - B`. -/
def substractMatrix (A B : GMat FV) : GMat FV :=
  ⟨A.rows, A.cols, fun i j => FV.sub (A.entry i j) (B.entry i j)⟩

/-- Modelled from the spec: `nan_to_zeros(A, out)` — replaces every NaN
entry by zero, leaving the rest unchanged. -/
def nanToZeros (A : GMat FV) : GMat FV :=
  ⟨A.rows, A.cols, fun i j =>
    match A.entry i j with
    | Option.none => Option.some 0
    | Option.some a => Option.some a⟩

/-- Modelled from the spec: `linalg.dot(A, B)` over float values. -/
def dotFV (A B : GMat FV) : GMat FV :=
  ⟨A.rows, B.cols, fun i j =>
    FV.listSum ((List.range A.cols).map
      (fun k => FV.mul (A.entry i k) (B.entry k j)))⟩

/-- Modelled from the spec: `linalg.dot(A, B, transa='T')` over float
values. -/
def dotFVTa (A B : GMat FV) : GMat FV :=
  ⟨A.cols, B.cols, fun i j =>
    FV.listSum ((List.range A.rows).map
      (fun k => FV.mul (A.entry k i) (B.entry k j)))⟩

/-- Modelled from the spec: `linalg.dot(A, B, transb='T')` over float
values. -/
def dotFVTb (A B : GMat FV) : GMat FV :=
  ⟨A.rows, B.rows, fun i j =>
    FV.listSum ((List.range A.cols).map
      (fun k => FV.mul (A.entry i k) (B.entry j k)))⟩

/-- Modelled from the spec: `add_vec_to_mat` over float values. -/
def addVecToMatFV (A : GMat FV) (b : GVec FV) : GMat FV :=
  ⟨A.rows, A.cols, fun i j => FV.add (A.entry i j) (b.entry j)⟩

/-- Elementwise matrix sum over float values (the `+=` of device arrays). -/
def addMatFV (A B : GMat FV) : GMat FV :=
  ⟨A.rows, A.cols, fun i j => FV.add (A.entry i j) (B.entry i j)⟩

/-- Rational scalar times float-valued matrix. -/
def smulMatFV (c : ℚ) (A : GMat FV) : GMat FV :=
  ⟨A.rows, A.cols, fun i j => FV.mul (Option.some c) (A.entry i j)⟩

/-- Modelled from the spec: elementwise `sign(W)` over float values. -/
def signMatFV (A : GMat FV) : GMat FV :=
  ⟨A.rows, A.cols, fun i j => FV.sign (A.entry i j)⟩

/-- Modelled from the spec: `matrix_sum_out_axis(A, 0)` over float values —
the column sums. -/
def sumOutAxis0FV (A : GMat FV) : GVec FV :=
  ⟨A.cols, fun j =>
    FV.listSum ((List.range A.rows).map (fun i => A.entry i j))⟩

/-- The state of a `SoftmaxLayer` object (softmax_layer.py lines 103–134).
Entries are float values so that NaN handling is observable. -/
structure SoftmaxLayer where
  n_in : ℕ
  n_out : ℕ
  W : GMat FV
  b : GVec FV
  weights_scale : ℝ
  l1_penalty_weight : ℚ
  l2_penalty_weight : ℚ
  lr_multiplier : List ℝ
  test_error_fct : String

/-- `SoftmaxLayer.__init__` (softmax_layer.py lines 103–134) for the case
where `parameters` is an explicitly supplied `(W, b)` pair (the
`parameters=None` branch uses the external sampler and is not modelled).
Note: unlike `HiddenLayer.__init__`, the source performs NO shape assertion
on the supplied parameters — they are stored as given. -/
noncomputable def SoftmaxLayer.init (n_in n_out : ℕ)
    (parameters : GMat FV × GVec FV) (weights_scale : Option ℝ)
    (l1_penalty_weight l2_penalty_weight : ℚ)
    (lr_multiplier : Option (List ℝ)) (test_error_fct : String) :
    SoftmaxLayer :=
  { n_in := n_in
    n_out := n_out
    W := parameters.1
    b := parameters.2
    weights_scale :=
      weights_scale.getD (4 * Real.sqrt (6 / ((n_in : ℝ) + (n_out : ℝ))))
    l1_penalty_weight := l1_penalty_weight
    l2_penalty_weight := l2_penalty_weight
    lr_multiplier :=
      lr_multiplier.getD (List.replicate 2 ((1 : ℝ) / Real.sqrt (n_in : ℝ)))
    test_error_fct := test_error_fct }

/-- `SoftmaxLayer.architecture` (softmax_layer.py lines 136–140).  Note: no
`activation_function` entry. -/
def SoftmaxLayer.architecture (layer : SoftmaxLayer) :
    List (String × ArchVal) :=
  [("class", ArchVal.cls "SoftmaxLayer"),
   ("n_in", ArchVal.nat layer.n_in),
   ("n_out", ArchVal.nat layer.n_out)]

/-- `SoftmaxLayer.feed_forward` (softmax_layer.py lines 142–170).  The
`softmax` kernel lives in `hebel.pycuda_ops.softmax`, outside the source
files, and is supplied abstractly as `softmaxK`.  Returns bare activations
(not a tuple). -/
def SoftmaxLayer.feed_forward (layer : SoftmaxLayer)
    (softmaxK : GMat FV → GMat FV) (input_data : GMat FV) :
    Except String (GMat FV) :=
  if input_data.cols ≠ layer.W.rows then
    Except.error "ValueError"
  else
    Except.ok (softmaxK (addVecToMatFV (dotFV input_data layer.W) layer.b))

/-- The L1 weight-decay step of the softmax `backprop` (softmax_layer.py
lines 219–220). -/
def applyL1FV (layer : SoftmaxLayer) (dfW : GMat FV) : GMat FV :=
  if layer.l1_penalty_weight ≠ 0 then
    addMatFV dfW (smulMatFV layer.l1_penalty_weight (signMatFV layer.W))
  else dfW

/-- The L2 weight-decay step of the softmax `backprop` (softmax_layer.py
lines 223–224). -/
def applyL2FV (layer : SoftmaxLayer) (dfW : GMat FV) : GMat FV :=
  if layer.l2_penalty_weight ≠ 0 then
    addMatFV dfW (smulMatFV layer.l2_penalty_weight layer.W)
  else dfW

/-- `SoftmaxLayer.backprop` (softmax_layer.py lines 172–226).  `cache`, when
present, holds the activations; otherwise the forward pass is rerun.
`delta = activations - targets` with NaN entries zeroed in place, then the
same gradient pattern as `HiddenLayer.backprop`. -/
def SoftmaxLayer.backprop (layer : SoftmaxLayer)
    (softmaxK : GMat FV → GMat FV) (input_data targets : GMat FV)
    (cache : Option (GMat FV)) :
    Except String ((GMat FV × GVec FV) × GMat FV) :=
  match (match cache with
         | some a => Except.ok a
         | none => layer.feed_forward softmaxK input_data) with
  | Except.error e => Except.error e
  | Except.ok activations =>
      if activations.shape ≠ targets.shape then Except.error "ValueError"
      else
        Except.ok
          ((applyL2FV layer (applyL1FV layer
              (dotFVTa input_data (nanToZeros (substractMatrix activations targets)))),
            sumOutAxis0FV (nanToZeros (substractMatrix activations targets))),
           dotFVTb (nanToZeros (substractMatrix activations targets)) layer.W)

/-- Spec formula: `delta = df_activations ⊙ df_output`, the activation
derivative evaluated elementwise at the (post-activation) activations,
elementwise-multiplied with the incoming gradient. -/
def specDelta (df : ℚ → ℚ) (activations d : GMat ℚ) : GMat ℚ :=
  ⟨activations.rows, activations.cols,
   fun i j => df (activations.entry i j) * d.entry i j⟩

/-- Spec formula: `df_W = input_data^T · delta`, plus
`l1_penalty_weight · sign(W)` when the L1 weight is nonzero and plus
`l2_penalty_weight · W` when the L2 weight is nonzero. -/
def specDfW (W : GMat ℚ) (l1 l2 : ℚ) (input_data delta : GMat ℚ) : GMat ℚ :=
  ⟨input_data.cols, delta.cols, fun i j =>
    (∑ k ∈ Finset.range input_data.rows, input_data.entry k i * delta.entry k j)
    + (if l1 ≠ 0 then l1 * signQ (W.entry i j) else 0)
    + (if l2 ≠ 0 then l2 * W.entry i j else 0)⟩

/-- Spec formula: `df_b = colsum(delta)` — no decay term is ever added. -/
def specDfB (delta : GMat ℚ) : GVec ℚ :=
  ⟨delta.cols, fun j => ∑ i ∈ Finset.range delta.rows, delta.entry i j⟩

/-- Spec formula: `df_input = delta · W^T`. -/
def specDfInput (W delta : GMat ℚ) : GMat ℚ :=
  ⟨delta.rows, W.rows, fun i j =>
    ∑ k ∈ Finset.range delta.cols, delta.entry i k * W.entry j k⟩

/-- The contents of the `df_output` buffer after the dropout guard of
`backprop` has run: masked exactly when the cache has two elements and the
layer uses dropout. -/
def effectiveDfOutput (layer : HiddenLayer) (df_output : GMat ℚ) :
    FFCache ℚ → GMat ℚ
  | FFCache.one _ => df_output
  | FFCache.two _ m =>
      if 0 < layer.dropout then applyDropoutMask df_output m else df_output

/-- Combined effect of the two weight-decay steps on `df_W`. -/
theorem applyDecaySpec (layer : HiddenLayer) (dfW0 : GMat ℚ) :
    applyL2 layer (applyL1 layer dfW0) =
      ⟨dfW0.rows, dfW0.cols, fun i j =>
        dfW0.entry i j
        + (if layer.l1_penalty_weight ≠ 0 then
             layer.l1_penalty_weight * signQ (layer.W.entry i j) else 0)
        + (if layer.l2_penalty_weight ≠ 0 then
             layer.l2_penalty_weight * layer.W.entry i j else 0)⟩ := by
  refine GMat.eqOf ?_ ?_ ?_
  · unfold applyL1 applyL2
    split_ifs <;> rfl
  · unfold applyL1 applyL2
    split_ifs <;> rfl
  · funext i j
    unfold applyL1 applyL2
    split_ifs with h1 h2 <;>
      simp [addMat, smulMat, signMat, GMat.map]

theorem backpropCoreSpec (layer : HiddenLayer)
    (input_data d activations : GMat ℚ) :
    backpropCore layer input_data d activations =
      { df_W := specDfW layer.W layer.l1_penalty_weight
          layer.l2_penalty_weight input_data
          (specDelta layer.df activations d)
        df_b := specDfB (specDelta layer.df activations d)
        df_input := specDfInput layer.W (specDelta layer.df activations d)
        df_output_final := d } := by
  unfold backpropCore
  rw [applyDecaySpec]
  rfl

/-- Claim C1: for every `HiddenLayer` and every `input_data`/`df_output`,
with `dropout = 0` or a two-element cache supplied, `backprop` returns
`((df_W, df_b), df_input)` where `delta = df(activations) ⊙ df_output`
(with `df_output` as left by the dropout guard), `df_W = input_dataᵀ ·
delta` plus the L1/L2 decay terms exactly when their weights are nonzero,
`df_b = colsum(delta)` with no decay term, and `df_input = delta · Wᵀ`.
The layer's `W` and `b` are untouched: the embedding is a function of the
layer and returns no modified layer, mirroring that the source never
assigns `self.W`/`self.b` in `backprop`. -/
theorem c1_hidden_backprop_formula (layer : HiddenLayer)
    (input_data df_output : GMat ℚ) (c : FFCache ℚ) (oracle : ℕ → ℕ → ℚ)
    (h : layer.dropout = 0 ∨ c.isTwo = true) :
    layer.backprop input_data df_output (some c) oracle =
      Except.ok
        { df_W := specDfW layer.W layer.l1_penalty_weight
            layer.l2_penalty_weight input_data
            (specDelta layer.df c.activations
              (effectiveDfOutput layer df_output c))
          df_b := specDfB (specDelta layer.df c.activations
            (effectiveDfOutput layer df_output c))
          df_input := specDfInput layer.W (specDelta layer.df c.activations
            (effectiveDfOutput layer df_output c))
          df_output_final := effectiveDfOutput layer df_output c } := by
  cases c with
  | one A =>
      have hd : layer.dropout = 0 := by
        rcases h with h | h
        · exact h
        · simp [FFCache.isTwo] at h
      have hnot : ¬ (0 < layer.dropout) := by
        rw [hd]
        exact lt_irrefl 0
      simp only [HiddenLayer.backprop, hnot, if_false, ite_false]
      rw [backpropCoreSpec]
      rfl
  | two A M =>
      simp only [HiddenLayer.backprop]
      rw [backpropCoreSpec]
      rfl

def exW : GMat ℚ := ⟨1, 1, fun _ _ => 2⟩

def exB : GVec ℚ := ⟨1, fun _ => 1⟩

def exInput : GMat ℚ := ⟨1, 1, fun _ _ => 3⟩

def exDfOut : GMat ℚ := ⟨1, 1, fun _ _ => 5⟩

def exActs : GMat ℚ := ⟨1, 1, fun _ _ => 7⟩

/-- A concrete dropout-free hidden layer used by the witnesses. -/
noncomputable def exLayer : HiddenLayer :=
  { n_in := 1
    n_units := 1
    W := exW
    b := exB
    activation_function := "linear"
    f := id
    df := fun _ => 1
    weights_scale := 1
    dropout := 0
    l1_penalty_weight := 0
    l2_penalty_weight := 0
    lr_multiplier := [1, 1] }

/-- Witness for C1: the theorem applied at a concrete dropout-free layer,
input, upstream gradient and one-element cache. -/
theorem c1_hidden_backprop_formula_witness :
    (exLayer.dropout = 0 ∨ (FFCache.one exActs).isTwo = true) ∧
    exLayer.backprop exInput exDfOut (some (FFCache.one exActs))
        (fun _ _ => 1) =
      Except.ok
        { df_W := specDfW exLayer.W exLayer.l1_penalty_weight
            exLayer.l2_penalty_weight exInput
            (specDelta exLayer.df (FFCache.one exActs).activations
              (effectiveDfOutput exLayer exDfOut (FFCache.one exActs)))
          df_b := specDfB (specDelta exLayer.df
            (FFCache.one exActs).activations
            (effectiveDfOutput exLayer exDfOut (FFCache.one exActs)))
          df_input := specDfInput exLayer.W (specDelta exLayer.df
            (FFCache.one exActs).activations
            (effectiveDfOutput exLayer exDfOut (FFCache.one exActs)))
          df_output_final :=
            effectiveDfOutput exLayer exDfOut (FFCache.one exActs) } :=
  ⟨Or.inl rfl,
   c1_hidden_backprop_formula exLayer exInput exDfOut (FFCache.one exActs)
     (fun _ _ => 1) (Or.inl rfl)⟩

/-- Claim C9: for every `HiddenLayer` with `dropout > 0`, calling `backprop`
with an explicitly supplied one-element cache fails with an
unbound-local-variable error at the dropout guard (`dropout_mask` is only
bound when the cache has two elements); the gradient computation is never
reached — the call returns the error and no gradient. -/
theorem c9_backprop_one_cache_unbound (layer : HiddenLayer)
    (input_data df_output A : GMat ℚ) (oracle : ℕ → ℕ → ℚ)
    (h : 0 < layer.dropout) :
    layer.backprop input_data df_output (some (FFCache.one A)) oracle =
      Except.error "UnboundLocalError" := by
  simp only [HiddenLayer.backprop, h, if_true, ite_true]

/-- A concrete hidden layer with `dropout = 1/2`, used by the witnesses. -/
noncomputable def exLayerDrop : HiddenLayer :=
  { exLayer with dropout := 1/2 }

/-- Witness for C9 at a concrete layer with `dropout = 1/2`. -/
theorem c9_backprop_one_cache_unbound_witness :
    0 < exLayerDrop.dropout ∧
    exLayerDrop.backprop exInput exDfOut (some (FFCache.one exActs))
        (fun _ _ => 1) =
      Except.error "UnboundLocalError" :=
  ⟨show (0 : ℚ) < exLayerDrop.dropout from one_half_pos,
   c9_backprop_one_cache_unbound exLayerDrop exInput exDfOut exActs
     (fun _ _ => 1) (show (0 : ℚ) < exLayerDrop.dropout from one_half_pos)⟩

/-- Claim C10: when `dropout > 0` and a two-element cache is used,
`HiddenLayer.backprop` mutates the caller's `df_output` buffer in place by
applying the dropout mask to it (the final buffer contents equal
`df_output ⊙ mask`); when `dropout = 0`, the buffer is left unchanged by
`backprop`, whatever the cache. -/
theorem c10_df_output_mutation (layer : HiddenLayer)
    (input_data df_output A M : GMat ℚ) (oracle : ℕ → ℕ → ℚ) :
    (0 < layer.dropout →
      (layer.backprop input_data df_output (some (FFCache.two A M))
          oracle).map BackpropOut.df_output_final =
        Except.ok (applyDropoutMask df_output M))
    ∧ (layer.dropout = 0 → ∀ c : FFCache ℚ,
      (layer.backprop input_data df_output (some c) oracle).map
          BackpropOut.df_output_final =
        Except.ok df_output) := by
  constructor
  · intro h
    simp only [HiddenLayer.backprop, h, if_true, ite_true]
    rfl
  · intro hd c
    have hnot : ¬ 0 < layer.dropout := by
      rw [hd]
      exact lt_irrefl 0
    cases c <;> simp only [HiddenLayer.backprop, hnot, if_false, ite_false] <;> rfl

def exMask : GMat ℚ := ⟨1, 1, fun _ _ => 0⟩

/-- Witness for C10: both branches of the theorem at concrete layers
(`dropout = 1/2` with a two-element cache, and `dropout = 0`). -/
theorem c10_df_output_mutation_witness :
    0 < exLayerDrop.dropout ∧
    (exLayerDrop.backprop exInput exDfOut
        (some (FFCache.two exActs exMask)) (fun _ _ => 1)).map
        BackpropOut.df_output_final =
      Except.ok (applyDropoutMask exDfOut exMask) ∧
    exLayer.dropout = 0 ∧
    (exLayer.backprop exInput exDfOut (some (FFCache.one exActs))
        (fun _ _ => 1)).map BackpropOut.df_output_final =
      Except.ok exDfOut :=
  ⟨show (0 : ℚ) < exLayerDrop.dropout from one_half_pos,
   (c10_df_output_mutation exLayerDrop exInput exDfOut exActs exMask
     (fun _ _ => 1)).1 (show (0 : ℚ) < exLayerDrop.dropout from one_half_pos),
   rfl,
   (c10_df_output_mutation exLayer exInput exDfOut exActs exMask
     (fun _ _ => 1)).2 rfl (FFCache.one exActs)⟩

/-- Spec formula: in prediction mode with dropout, each activation entry
equals `(1 - dropout)` times the activation computed without dropout. -/
def specScaledActivations (layer : HiddenLayer) (input_data : GMat ℚ) :
    GMat ℚ :=
  ⟨(hiddenActivations layer input_data).rows,
   (hiddenActivations layer input_data).cols,
   fun i j =>
     (1 - layer.dropout) * (hiddenActivations layer input_data).entry i j⟩

/-- Claim C4: for every `HiddenLayer` with dropout `p` and matching input
shape: if `p > 0` and `prediction` is true, `feed_forward` returns a
one-element cache whose activations equal `(1-p)` times the activations
computed without dropout; if `p > 0` and `prediction` is false, it returns
a two-element cache `(masked activations, dropout mask)`; if `p = 0`, it
returns a one-element cache of the plain activations for either value of
the `prediction` flag. -/
theorem c4_feed_forward_dropout (layer : HiddenLayer) (input_data : GMat ℚ)
    (oracle : ℕ → ℕ → ℚ) (hshape : input_data.cols = layer.W.rows) :
    (0 < layer.dropout →
      layer.feed_forward input_data true oracle =
        Except.ok (FFCache.one (specScaledActivations layer input_data)) ∧
      layer.feed_forward input_data false oracle =
        Except.ok (FFCache.two
          (multMatrix (hiddenActivations layer input_data)
            ⟨(hiddenActivations layer input_data).rows,
             (hiddenActivations layer input_data).cols, oracle⟩)
          ⟨(hiddenActivations layer input_data).rows,
           (hiddenActivations layer input_data).cols, oracle⟩))
    ∧ (layer.dropout = 0 → ∀ prediction : Bool,
      layer.feed_forward input_data prediction oracle =
        Except.ok (FFCache.one (hiddenActivations layer input_data))) := by
  have hne : ¬ input_data.cols ≠ layer.W.rows := by
    rw [hshape]
    exact fun hc => hc rfl
  constructor
  · intro h
    constructor
    · simp only [HiddenLayer.feed_forward, hne, if_false, ite_false, h,
        if_true, ite_true]
      refine congrArg Except.ok (congrArg FFCache.one ?_)
      refine GMat.eqOf rfl rfl ?_
      funext i j
      simp only [mulScalarRight, specScaledActivations]
      ring
    · simp only [HiddenLayer.feed_forward, hne, if_false, ite_false, h,
        if_true, ite_true]
      rfl
  · intro hd prediction
    have hnot : ¬ 0 < layer.dropout := by
      rw [hd]
      exact lt_irrefl 0
    simp only [HiddenLayer.feed_forward, hne, if_false, ite_false, hnot]

/-- Witness for C4: all three branches at concrete layers with `dropout =
1/2` and `dropout = 0`. -/
theorem c4_feed_forward_dropout_witness :
    exInput.cols = exLayerDrop.W.rows ∧
    0 < exLayerDrop.dropout ∧
    exLayerDrop.feed_forward exInput true (fun _ _ => 1) =
      Except.ok (FFCache.one (specScaledActivations exLayerDrop exInput)) ∧
    exLayer.dropout = 0 ∧
    exLayer.feed_forward exInput true (fun _ _ => 1) =
      Except.ok (FFCache.one (hiddenActivations exLayer exInput)) :=
  ⟨rfl,
   show (0 : ℚ) < exLayerDrop.dropout from one_half_pos,
   ((c4_feed_forward_dropout exLayerDrop exInput (fun _ _ => 1) rfl).1
     (show (0 : ℚ) < exLayerDrop.dropout from one_half_pos)).1,
   rfl,
   (c4_feed_forward_dropout exLayer exInput (fun _ _ => 1) rfl).2 rfl true⟩

/-- Claim C7: `update_parameters(values)` fails when `values` has a length
other than 2, and otherwise replaces `W` by `1·W + mult_W·gparam_W` and `b`
by `1·b + mult_b·gparam_b` in place; in particular an all-zero gradient
with any multiplier leaves `W` and `b` unchanged. -/
theorem c7_update_parameters (layer : HiddenLayer) (gW : GMat ℚ)
    (gb : GVec ℚ) (mW mb : ℚ)
    (hr : gW.rows = layer.W.rows) (hc : gW.cols = layer.W.cols)
    (hl : gb.len = layer.b.len) :
    (∀ values : List (PArr × ℚ), values.length ≠ 2 →
      layer.update_parameters values = Except.error "AssertionError")
    ∧ layer.update_parameters [(PArr.mat gW, mW), (PArr.vec gb, mb)] =
        Except.ok { layer with
          W := ⟨layer.W.rows, layer.W.cols,
                fun i j => 1 * layer.W.entry i j + mW * gW.entry i j⟩
          b := ⟨layer.b.len, fun j => 1 * layer.b.entry j + mb * gb.entry j⟩ }
    ∧ ((∀ i j, gW.entry i j = 0) → (∀ j, gb.entry j = 0) →
        layer.update_parameters [(PArr.mat gW, mW), (PArr.vec gb, mb)] =
          Except.ok layer) := by
  have hok : layer.update_parameters [(PArr.mat gW, mW), (PArr.vec gb, mb)] =
      Except.ok { layer with
        W := ⟨layer.W.rows, layer.W.cols,
              fun i j => 1 * layer.W.entry i j + mW * gW.entry i j⟩
        b := ⟨layer.b.len, fun j => 1 * layer.b.entry j + mb * gb.entry j⟩ } := by
    simp only [HiddenLayer.update_parameters, axpbyzMat, axpbyzVec, hr, hc,
      hl, and_self, if_true, ite_true]
  refine ⟨?_, hok, ?_⟩
  · intro values hlen
    match values with
    | [] => rfl
    | [_] => rfl
    | [_, _] => exact absurd rfl hlen
    | _ :: _ :: _ :: _ => rfl
  · intro hz1 hz2
    rw [hok]
    have hWeq : (⟨layer.W.rows, layer.W.cols,
        fun i j => 1 * layer.W.entry i j + mW * gW.entry i j⟩ : GMat ℚ) =
        layer.W := by
      refine GMat.eqOf rfl rfl ?_
      funext i j
      show 1 * layer.W.entry i j + mW * gW.entry i j = layer.W.entry i j
      rw [hz1 i j]
      ring
    have hbeq : (⟨layer.b.len,
        fun j => 1 * layer.b.entry j + mb * gb.entry j⟩ : GVec ℚ) =
        layer.b := by
      refine GVec.eqOfVec rfl ?_
      funext j
      show 1 * layer.b.entry j + mb * gb.entry j = layer.b.entry j
      rw [hz2 j]
      ring
    rw [hWeq, hbeq]

def exVec0 : GVec ℚ := ⟨1, fun _ => 0⟩

/-- Witness for C7: a concrete update with an all-zero gradient and
multiplier `-1` leaves the concrete layer unchanged; a list of the wrong
length is rejected. -/
theorem c7_update_parameters_witness :
    exMask.rows = exLayer.W.rows ∧
    exLayer.update_parameters [] = Except.error "AssertionError" ∧
    exLayer.update_parameters
        [(PArr.mat exMask, -1), (PArr.vec exVec0, -1)] =
      Except.ok exLayer :=
  ⟨rfl,
   (c7_update_parameters exLayer exMask exVec0 (-1) (-1) rfl rfl rfl).1 []
     (by simp),
   (c7_update_parameters exLayer exMask exVec0 (-1) (-1) rfl rfl rfl).2.2
     (fun _ _ => rfl) (fun _ => rfl)⟩

/-- Claim C5 (refuted by the code, a slip): the `parameters` setter is
claimed to transfer each host-resident entry to the device independently of
the other entry; but both residency tests in the source inspect `value[0]`,
so with a device-resident `W` and a host-resident `b` the stored `b` stays
host-resident.  This theorem evaluates the embedded setter at that failing
input. -/
theorem c5_parameters_setter_bug :
    parametersSetter (Arr.dev exW, Arr.host exB) =
      (Arr.dev exW, Arr.host exB) ∧
    Arr.isGPUArray (parametersSetter (Arr.dev exW, Arr.host exB)).2 = false :=
  ⟨rfl, rfl⟩

/-- Whether an `Except` value is a success. -/
def exceptIsOk {ε α : Type} : Except ε α → Bool
  | Except.ok _ => true
  | Except.error _ => false

theorem exceptIsOkTrue {ε α : Type} (x : Except ε α)
    (h : exceptIsOk x = true) : ∃ a, x = Except.ok a := by
  cases x with
  | error e => exact absurd h (by simp [exceptIsOk])
  | ok a => exact ⟨a, rfl⟩

/-- Every successful `HiddenLayer.init` stores the supplied parameters and
passed the shape assertions. -/
theorem hiddenInitOkShapes (n_in n_units : ℕ) (af : String)
    (fdf : (ℚ → ℚ) × (ℚ → ℚ)) (dropout : ℚ) (params : GMat ℚ × GVec ℚ)
    (ws : Option ℝ) (l1 l2 : ℚ) (lr : Option (List ℝ)) (l : HiddenLayer)
    (h : HiddenLayer.init n_in n_units af fdf dropout params ws l1 l2 lr =
      Except.ok l) :
    l.W = params.1 ∧ l.b = params.2 ∧
    params.1.shape = (n_in, n_units) ∧ params.2.len = n_units := by
  unfold HiddenLayer.init at h
  split at h
  · exact Except.noConfusion h
  · split at h
    · exact Except.noConfusion h
    · split at h
      · split at h
        · split at h
          · rename_i hsh hlen hdrop
            injection h with h2
            subst h2
            exact ⟨rfl, rfl, hsh, hlen⟩
          · exact Except.noConfusion h
        · exact Except.noConfusion h
      · exact Except.noConfusion h

/-- Claim C3 (amended): `HiddenLayer` enforces the shape invariant at
construction — an explicitly supplied `(W, b)` with shapes other than
`((n_in, n_units), (n_units,))` makes construction fail, and every
successfully constructed `HiddenLayer` satisfies the invariant.
`SoftmaxLayer`, by contrast, performs no shape check: it stores the
supplied parameters as given, so its construction succeeds even with
mismatched shapes (see the counterexample). -/
theorem c3_shape_invariant_amended (n_in n_units : ℕ) (af : String)
    (fdf : (ℚ → ℚ) × (ℚ → ℚ)) (dropout : ℚ) (params : GMat ℚ × GVec ℚ)
    (ws : Option ℝ) (l1 l2 : ℚ) (lr : Option (List ℝ)) (n_in2 n_out2 : ℕ)
    (paramsS : GMat FV × GVec FV) (wsS : Option ℝ) (l1S l2S : ℚ)
    (lrS : Option (List ℝ)) (tef : String) :
    (params.1.shape ≠ (n_in, n_units) ∨ params.2.len ≠ n_units →
      exceptIsOk (HiddenLayer.init n_in n_units af fdf dropout params ws
        l1 l2 lr) = false)
    ∧ (∀ l : HiddenLayer,
        HiddenLayer.init n_in n_units af fdf dropout params ws l1 l2 lr =
          Except.ok l →
        l.W.shape = (n_in, n_units) ∧ l.b.len = n_units)
    ∧ (SoftmaxLayer.init n_in2 n_out2 paramsS wsS l1S l2S lrS tef).W =
        paramsS.1
    ∧ (SoftmaxLayer.init n_in2 n_out2 paramsS wsS l1S l2S lrS tef).b =
        paramsS.2 := by
  refine ⟨?_, ?_, rfl, rfl⟩
  · intro hmis
    cases hE : exceptIsOk (HiddenLayer.init n_in n_units af fdf dropout
        params ws l1 l2 lr) with
    | false => rfl
    | true =>
        obtain ⟨l, hl⟩ := exceptIsOkTrue _ hE
        obtain ⟨_, _, hsh, hlen⟩ := hiddenInitOkShapes n_in n_units af fdf
          dropout params ws l1 l2 lr l hl
        rcases hmis with hm | hm
        · exact absurd hsh hm
        · exact absurd hlen hm
  · intro l hl
    obtain ⟨hW, hb, hsh, hlen⟩ := hiddenInitOkShapes n_in n_units af fdf
      dropout params ws l1 l2 lr l hl
    constructor
    · rw [hW]
      exact hsh
    · rw [hb]
      exact hlen

def exWFV2 : GMat FV := ⟨2, 2, fun _ _ => Option.some 1⟩

def exBFV2 : GVec FV := ⟨2, fun _ => Option.some 0⟩

/-- Counterexample for C3 as stated: a `SoftmaxLayer` constructed with
`n_in = n_out = 1` but a 2×2 weight matrix and a length-2 bias —
construction succeeds (the source has no shape assertion) and the stored
shapes violate the claimed invariant. -/
theorem c3_counterexample :
    (SoftmaxLayer.init 1 1 (exWFV2, exBFV2) Option.none 0 0 Option.none
      "class_error").W.shape = (2, 2) ∧
    (SoftmaxLayer.init 1 1 (exWFV2, exBFV2) Option.none 0 0 Option.none
      "class_error").b.len = 2 ∧
    ((2, 2) : ℕ × ℕ) ≠ (1, 1) ∧ (2 : ℕ) ≠ 1 :=
  ⟨rfl, rfl, by decide, by decide⟩

def exBadW : GMat ℚ := ⟨2, 2, fun _ _ => 0⟩

/-- Witness for the amended C3: a mismatched `HiddenLayer` construction at
concrete arguments is rejected, and the concrete `SoftmaxLayer` of the
counterexample stores its parameters as given. -/
theorem c3_shape_invariant_amended_witness :
    ((exBadW, exB) : GMat ℚ × GVec ℚ).1.shape ≠ (1, 1) ∧
    exceptIsOk (HiddenLayer.init 1 1 "sigmoid" (id, id) 0 (exBadW, exB)
      Option.none 0 0 Option.none) = false ∧
    (SoftmaxLayer.init 1 1 (exWFV2, exBFV2) Option.none 0 0 Option.none
      "class_error").W = exWFV2 :=
  ⟨by simp [exBadW, GMat.shape],
   (c3_shape_invariant_amended 1 1 "sigmoid" (id, id) 0 (exBadW, exB)
     Option.none 0 0 Option.none 1 1 (exWFV2, exBFV2) Option.none 0 0
     Option.none "class_error").1
     (Or.inl (by simp [exBadW, GMat.shape])),
   (c3_shape_invariant_amended 1 1 "sigmoid" (id, id) 0 (exBadW, exB)
     Option.none 0 0 Option.none 1 1 (exWFV2, exBFV2) Option.none 0 0
     Option.none "class_error").2.2.1⟩

/-- Under the `sigmoid` activation name, an explicitly supplied weights
scale, matching shapes and a dropout in range, `HiddenLayer.init` succeeds
and stores exactly the expected fields. -/
theorem hiddenInitOk (n_in n_units : ℕ) (fdf : (ℚ → ℚ) × (ℚ → ℚ))
    (dropout : ℚ) (params : GMat ℚ × GVec ℚ) (w : ℝ) (l1 l2 : ℚ)
    (lr : Option (List ℝ))
    (hsh : params.1.shape = (n_in, n_units)) (hlen : params.2.len = n_units)
    (hd : 0 ≤ dropout ∧ dropout < 1) :
    HiddenLayer.init n_in n_units "sigmoid" fdf dropout params (some w)
        l1 l2 lr =
      Except.ok
        { n_in := n_in
          n_units := n_units
          W := params.1
          b := params.2
          activation_function := "sigmoid"
          f := fdf.1
          df := fdf.2
          weights_scale := w
          dropout := dropout
          l1_penalty_weight := l1
          l2_penalty_weight := l2
          lr_multiplier :=
            lr.getD (List.replicate 2 ((1 : ℝ) / Real.sqrt (n_in : ℝ))) } := by
  have h1 : resolveActivationFct "sigmoid" fdf = Except.ok fdf := rfl
  simp only [HiddenLayer.init, h1, hsh, hlen, if_pos, ite_true, if_true,
    hd, and_self, eq_self_iff_true]

/-- Claim C6: for a `HiddenLayer` or `SoftmaxLayer` constructed without an
explicit `lr_multiplier` argument, the stored `lr_multiplier` is a
two-element list whose entries both equal `1/sqrt(n_in)`. -/
theorem c6_default_lr_multiplier (n_in n_units : ℕ)
    (fdf : (ℚ → ℚ) × (ℚ → ℚ)) (dropout : ℚ) (params : GMat ℚ × GVec ℚ)
    (w : ℝ) (l1 l2 : ℚ)
    (hsh : params.1.shape = (n_in, n_units)) (hlen : params.2.len = n_units)
    (hd : 0 ≤ dropout ∧ dropout < 1)
    (n_in2 n_out2 : ℕ) (paramsS : GMat FV × GVec FV) (wsS : Option ℝ)
    (l1S l2S : ℚ) (tef : String) :
    (HiddenLayer.init n_in n_units "sigmoid" fdf dropout params (some w)
        l1 l2 Option.none).map HiddenLayer.lr_multiplier =
      Except.ok [(1 : ℝ) / Real.sqrt (n_in : ℝ),
                 (1 : ℝ) / Real.sqrt (n_in : ℝ)]
    ∧ (SoftmaxLayer.init n_in2 n_out2 paramsS wsS l1S l2S Option.none
        tef).lr_multiplier =
      [(1 : ℝ) / Real.sqrt (n_in2 : ℝ), (1 : ℝ) / Real.sqrt (n_in2 : ℝ)] := by
  constructor
  · rw [hiddenInitOk n_in n_units fdf dropout params w l1 l2 Option.none
      hsh hlen hd]
    rfl
  · rfl

/-- Witness for C6 at concrete constructions of both layer types. -/
theorem c6_default_lr_multiplier_witness :
    GMat.shape exW = (1, 1) ∧ exB.len = 1 ∧
    ((0 : ℚ) ≤ 0 ∧ (0 : ℚ) < 1) ∧
    (HiddenLayer.init 1 1 "sigmoid" (id, id) 0 (exW, exB) (some 1) 0 0
        Option.none).map HiddenLayer.lr_multiplier =
      Except.ok [(1 : ℝ) / Real.sqrt ((1 : ℕ) : ℝ),
                 (1 : ℝ) / Real.sqrt ((1 : ℕ) : ℝ)] ∧
    (SoftmaxLayer.init 1 1 (exWFV2, exBFV2) Option.none 0 0 Option.none
        "class_error").lr_multiplier =
      [(1 : ℝ) / Real.sqrt ((1 : ℕ) : ℝ), (1 : ℝ) / Real.sqrt ((1 : ℕ) : ℝ)] :=
  ⟨rfl, rfl, ⟨le_refl 0, zero_lt_one⟩,
   (c6_default_lr_multiplier 1 1 (id, id) 0 (exW, exB) 1 0 0 rfl rfl
     ⟨le_refl 0, zero_lt_one⟩ 1 1 (exWFV2, exBFV2) Option.none 0 0
     "class_error").1,
   (c6_default_lr_multiplier 1 1 (id, id) 0 (exW, exB) 1 0 0 rfl rfl
     ⟨le_refl 0, zero_lt_one⟩ 1 1 (exWFV2, exBFV2) Option.none 0 0
     "class_error").2⟩

/-- Claim C8 (amended): `HiddenLayer.architecture` is a mapping with the
entries `class`, `n_in`, `n_units` and `activation_function`;
`SoftmaxLayer.architecture` has only `class`, `n_in` and `n_out` — it
contains no `activation_function` entry (see the counterexample to the
original claim). -/
theorem c8_architecture_amended (n_in n_units : ℕ)
    (fdf : (ℚ → ℚ) × (ℚ → ℚ)) (dropout : ℚ) (params : GMat ℚ × GVec ℚ)
    (w : ℝ) (l1 l2 : ℚ) (lr : Option (List ℝ))
    (hsh : params.1.shape = (n_in, n_units)) (hlen : params.2.len = n_units)
    (hd : 0 ≤ dropout ∧ dropout < 1)
    (n_in2 n_out2 : ℕ) (paramsS : GMat FV × GVec FV) (wsS : Option ℝ)
    (l1S l2S : ℚ) (lrS : Option (List ℝ)) (tef : String) :
    (HiddenLayer.init n_in n_units "sigmoid" fdf dropout params (some w)
        l1 l2 lr).map HiddenLayer.architecture =
      Except.ok [("class", ArchVal.cls "HiddenLayer"),
        ("n_in", ArchVal.nat n_in), ("n_units", ArchVal.nat n_units),
        ("activation_function", ArchVal.str "sigmoid")]
    ∧ (SoftmaxLayer.init n_in2 n_out2 paramsS wsS l1S l2S lrS
        tef).architecture =
      [("class", ArchVal.cls "SoftmaxLayer"), ("n_in", ArchVal.nat n_in2),
       ("n_out", ArchVal.nat n_out2)]
    ∧ ("activation_function" : String) ∉
        ((SoftmaxLayer.init n_in2 n_out2 paramsS wsS l1S l2S lrS
          tef).architecture.map Prod.fst) := by
  refine ⟨?_, rfl, ?_⟩
  · rw [hiddenInitOk n_in n_units fdf dropout params w l1 l2 lr hsh hlen hd]
    rfl
  · have hnm : ("activation_function" : String) ∉
        (["class", "n_in", "n_out"] : List String) := by decide
    exact hnm

/-- Counterexample for C8 as stated: the architecture mapping of a concrete
`SoftmaxLayer` has exactly the keys `class`, `n_in`, `n_out`, and
`activation_function` is not among them. -/
theorem c8_counterexample :
    (SoftmaxLayer.init 1 1 (exWFV2, exBFV2) Option.none 0 0 Option.none
      "class_error").architecture.map Prod.fst =
      ["class", "n_in", "n_out"] ∧
    ("activation_function" : String) ∉
      (["class", "n_in", "n_out"] : List String) :=
  ⟨rfl, by decide⟩

/-- Witness for the amended C8 at concrete constructions of both types. -/
theorem c8_architecture_amended_witness :
    GMat.shape exW = (1, 1) ∧
    (HiddenLayer.init 1 1 "sigmoid" (id, id) 0 (exW, exB) (some 1) 0 0
        Option.none).map HiddenLayer.architecture =
      Except.ok [("class", ArchVal.cls "HiddenLayer"),
        ("n_in", ArchVal.nat 1), ("n_units", ArchVal.nat 1),
        ("activation_function", ArchVal.str "sigmoid")] ∧
    ("activation_function" : String) ∉
      ((SoftmaxLayer.init 1 1 (exWFV2, exBFV2) Option.none 0 0 Option.none
        "class_error").architecture.map Prod.fst) :=
  ⟨rfl,
   (c8_architecture_amended 1 1 (id, id) 0 (exW, exB) 1 0 0 Option.none
     rfl rfl ⟨le_refl 0, zero_lt_one⟩ 1 1 (exWFV2, exBFV2) Option.none 0 0
     Option.none "class_error").1,
   (c8_architecture_amended 1 1 (id, id) 0 (exW, exB) 1 0 0 Option.none
     rfl rfl ⟨le_refl 0, zero_lt_one⟩ 1 1 (exWFV2, exBFV2) Option.none 0 0
     Option.none "class_error").2.2⟩

theorem FV.addZero (v : FV) : FV.add v (Option.some 0) = v := by
  cases v with
  | none => rfl
  | some a =>
      show Option.some (a + 0) = Option.some a
      rw [add_zero]

/-- Spec formula: the softmax training gradient collapses to
`delta = activations - targets`, with every NaN entry replaced by zero. -/
def softmaxDelta (activations targets : GMat FV) : GMat FV :=
  nanToZeros (substractMatrix activations targets)

/-- A float-valued matrix with no NaN entry anywhere. -/
def GMat.hasNoNaN (A : GMat FV) : Prop :=
  ∀ i j, FV.isNaN (A.entry i j) = false

/-- Spec formula: `df_W = input_data^T · delta` plus the L1/L2 decay terms
(on `df_W` only), the same pattern as `HiddenLayer`, over float values. -/
def specDfWFV (W : GMat FV) (l1 l2 : ℚ) (input_data delta : GMat FV) :
    GMat FV :=
  ⟨input_data.cols, delta.cols, fun i j =>
    FV.add (FV.add
      (FV.listSum ((List.range input_data.rows).map
        (fun k => FV.mul (input_data.entry k i) (delta.entry k j))))
      (if l1 ≠ 0 then FV.mul (Option.some l1) (FV.sign (W.entry i j))
       else Option.some 0))
      (if l2 ≠ 0 then FV.mul (Option.some l2) (W.entry i j)
       else Option.some 0)⟩

/-- Spec formula: `df_b = colsum(delta)` over float values, no decay. -/
def specDfBFV (delta : GMat FV) : GVec FV :=
  ⟨delta.cols, fun j =>
    FV.listSum ((List.range delta.rows).map (fun i => delta.entry i j))⟩

/-- Spec formula: `df_input = delta · W^T` over float values. -/
def specDfInputFV (W delta : GMat FV) : GMat FV :=
  ⟨delta.rows, W.rows, fun i j =>
    FV.listSum ((List.range delta.cols).map
      (fun k => FV.mul (delta.entry i k) (W.entry j k)))⟩

/-- Combined effect of the two weight-decay steps on the softmax `df_W`. -/
theorem applyDecayFVSpec (layer : SoftmaxLayer) (dfW0 : GMat FV) :
    applyL2FV layer (applyL1FV layer dfW0) =
      ⟨dfW0.rows, dfW0.cols, fun i j =>
        FV.add (FV.add (dfW0.entry i j)
          (if layer.l1_penalty_weight ≠ 0 then
             FV.mul (Option.some layer.l1_penalty_weight)
               (FV.sign (layer.W.entry i j))
           else Option.some 0))
          (if layer.l2_penalty_weight ≠ 0 then
             FV.mul (Option.some layer.l2_penalty_weight)
               (layer.W.entry i j)
           else Option.some 0)⟩ := by
  refine GMat.eqOf ?_ ?_ ?_
  · unfold applyL1FV applyL2FV
    split_ifs <;> rfl
  · unfold applyL1FV applyL2FV
    split_ifs <;> rfl
  · funext i j
    unfold applyL1FV applyL2FV
    split_ifs with h1 h2 <;>
      simp [addMatFV, smulMatFV, signMatFV, FV.addZero]

/-- Claim C2: for every `SoftmaxLayer`, `backprop` with a supplied cache
raises `ValueError` if and only if the activations' shape differs from the
targets' shape; otherwise it returns the gradients derived from
`delta = activations - targets` with NaN entries zeroed, by the same
`df_W`/`df_b`/`df_input` and L1/L2 pattern as `HiddenLayer`; and the
sanitized `delta` never contains a NaN entry, whatever the targets. -/
theorem c2_softmax_backprop (layer : SoftmaxLayer)
    (softmaxK : GMat FV → GMat FV) (input_data targets A : GMat FV) :
    (layer.backprop softmaxK input_data targets (some A) =
        Except.error "ValueError" ↔ A.shape ≠ targets.shape)
    ∧ (A.shape = targets.shape →
        layer.backprop softmaxK input_data targets (some A) =
          Except.ok
            ((specDfWFV layer.W layer.l1_penalty_weight
                layer.l2_penalty_weight input_data (softmaxDelta A targets),
              specDfBFV (softmaxDelta A targets)),
             specDfInputFV layer.W (softmaxDelta A targets)))
    ∧ GMat.hasNoNaN (softmaxDelta A targets) := by
  have hok : A.shape = targets.shape →
      layer.backprop softmaxK input_data targets (some A) =
        Except.ok
          ((specDfWFV layer.W layer.l1_penalty_weight
              layer.l2_penalty_weight input_data (softmaxDelta A targets),
            specDfBFV (softmaxDelta A targets)),
           specDfInputFV layer.W (softmaxDelta A targets)) := by
    intro hsh
    simp only [SoftmaxLayer.backprop]
    rw [if_neg (fun hc => hc hsh)]
    rw [applyDecayFVSpec]
    rfl
  refine ⟨⟨?_, ?_⟩, hok, ?_⟩
  · intro herr
    intro hsh
    rw [hok hsh] at herr
    exact Except.noConfusion herr
  · intro hne
    simp only [SoftmaxLayer.backprop]
    rw [if_pos hne]
  · intro i j
    show FV.isNaN ((nanToZeros (substractMatrix A targets)).entry i j) =
      false
    simp only [nanToZeros]
    cases hx : (substractMatrix A targets).entry i j with
    | none => rfl
    | some a => rfl

/-- A concrete softmax layer used by the witnesses. -/
noncomputable def exSLayer : SoftmaxLayer :=
  { n_in := 1
    n_out := 1
    W := ⟨1, 1, fun _ _ => Option.some 2⟩
    b := ⟨1, fun _ => Option.some 0⟩
    weights_scale := 1
    l1_penalty_weight := 0
    l2_penalty_weight := 0
    lr_multiplier := [1, 1]
    test_error_fct := "class_error" }

def exAFV : GMat FV := ⟨1, 1, fun _ _ => Option.some 1⟩

/-- A concrete target matrix whose single entry is NaN (a degenerate
target), exercising the NaN sanitization. -/
def exTFV : GMat FV := ⟨1, 1, fun _ _ => Option.none⟩

def exInFV : GMat FV := ⟨1, 1, fun _ _ => Option.some 3⟩

/-- Witness for C2: at a concrete layer, input, cache and NaN-carrying
targets of matching shape, `backprop` succeeds with the spec gradients and
the sanitized `delta` has no NaN entry. -/
theorem c2_softmax_backprop_witness :
    GMat.shape exAFV = GMat.shape exTFV ∧
    exSLayer.backprop id exInFV exTFV (some exAFV) =
      Except.ok
        ((specDfWFV exSLayer.W exSLayer.l1_penalty_weight
            exSLayer.l2_penalty_weight exInFV (softmaxDelta exAFV exTFV),
          specDfBFV (softmaxDelta exAFV exTFV)),
         specDfInputFV exSLayer.W (softmaxDelta exAFV exTFV)) ∧
    GMat.hasNoNaN (softmaxDelta exAFV exTFV) :=
  ⟨rfl,
   (c2_softmax_backprop exSLayer id exInFV exTFV exAFV).2.1 rfl,
   (c2_softmax_backprop exSLayer id exInFV exTFV exAFV).2.2⟩
